import Mathlib

/-!
Shallow embedding of the tile-atlas visualization engine found in this
repository (primary variant: `src/unnamed/part_000`; the `src/docs/main.js`
variant differs only in constants and in taking the new mode as a parameter).
Numeric values are modelled by rationals, DOM/WebGL objects by inert data:
a texture is identified by the source rectangle it was sliced from, a scene
child is either a mesh (tile plane) or a non-mesh object (axes helper).
Asynchronous load outcomes (image loads, JSON fetch) are passed in as
explicit oracle data, since the network is outside the program.
-/

set_option maxRecDepth 4000

namespace TsneViewer

/-- The visualization mode, the JS string `currentMode ∈ {'3D','2D','2D_GRID'}`. -/
inductive Mode where
  | threeD
  | twoD
  | twoDGrid
deriving DecidableEq, Repr

/-- One entry of the loaded `imagePositions` array: numeric `x`, `y`, `z` fields. -/
structure PositionRecord where
  x : ℚ
  y : ℚ
  z : ℚ
deriving DecidableEq, Repr

/-- A world-space position, the `{x, y, z}` object passed to `createPlane`. -/
structure Vec3 where
  x : ℚ
  y : ℚ
  z : ℚ
deriving DecidableEq, Repr

/-- `const montageTilesX = 15` (part_000 line 2). -/
def montageTilesX : Nat := 15

/-- `const montageTilesY = 15` (part_000 line 3). -/
def montageTilesY : Nat := 15

/-- `const montageTileResolution = 256` (part_000 line 4). -/
def montageTileResolution : Nat := 256

/-- `const scalar_ = 1` (part_000 line 6). -/
def scalar_ : ℚ := 1

/-- The `effectiveSpaceMultiplier` computed in `createAndRenderPlanes` and
`updatePlanePositions` (part_000 lines 302-308, 328-334): `2.0` in `2D_GRID`
mode, otherwise the live `spaceBetweenTiles` value. -/
def effectiveSpaceMultiplier (currentMode : Mode) (spaceBetweenTiles : ℚ) : ℚ :=
  if currentMode = Mode.twoDGrid then 2 else spaceBetweenTiles

/-- The `position` object built in `createAndRenderPlanes` (part_000 lines
310-315) for one dataset record: x and y scaled by the effective multiplier,
z scaled only in `3D` mode and `0` otherwise. -/
def placePosition (currentMode : Mode) (spaceBetweenTiles : ℚ)
    (record : PositionRecord) : Vec3 :=
  { x := record.x * effectiveSpaceMultiplier currentMode spaceBetweenTiles
    y := record.y * effectiveSpaceMultiplier currentMode spaceBetweenTiles
    z := if currentMode = Mode.threeD then
           record.z * effectiveSpaceMultiplier currentMode spaceBetweenTiles
         else 0 }

/-- The `position` object built in `updatePlanePositions` (part_000 lines
336-341): like `placePosition` but additionally multiplied by `scalar_`. -/
def repositionPosition (currentMode : Mode) (spaceBetweenTiles : ℚ)
    (record : PositionRecord) : Vec3 :=
  { x := record.x * effectiveSpaceMultiplier currentMode spaceBetweenTiles * scalar_
    y := record.y * effectiveSpaceMultiplier currentMode spaceBetweenTiles * scalar_
    z := if currentMode = Mode.threeD then
           record.z * effectiveSpaceMultiplier currentMode spaceBetweenTiles * scalar_
         else 0 }

/-- A pixel rectangle within a montage image. -/
structure Rect where
  x : Nat
  y : Nat
  w : Nat
  h : Nat
deriving DecidableEq, Repr

/-- `getChunkedTexture(image, x, y, chunkSize)` (part_000 lines 108-115):
copies the `chunkSize × chunkSize` source rectangle at `(x, y)` into a fresh
same-size canvas and wraps it as a texture.  The texture content is a pure
function of the inputs; we identify it with the source rectangle. -/
def getChunkedTexture (x y : Nat) (chunkSize : Nat := montageTileResolution) : Rect :=
  { x := x, y := y, w := chunkSize, h := chunkSize }

/-- A tile plane created by `createPlane` (part_000 lines 117-124): it owns
one texture (identified by its montage file and source rectangle), the
dataset index its position was computed from, and its current world
position. -/
structure Tile where
  texture : Rect
  file : Nat
  dataIndex : Nat
  pos : Vec3
deriving DecidableEq, Repr

/-- A member of `scene.children`: either a tile mesh (`THREE.Mesh`) or a
non-mesh object such as the axes helper (`THREE.AxesHelper` is not a
`THREE.Mesh`, so the `child instanceof THREE.Mesh` checks skip it). -/
inductive SceneChild where
  | mesh (t : Tile)
  | nonMesh (id : Nat)
deriving DecidableEq, Repr

/-- The `child instanceof THREE.Mesh` test. -/
def SceneChild.isMesh : SceneChild → Bool
  | .mesh _ => true
  | .nonMesh _ => false

/-- Identifier of the single axes-helper object. -/
def axesId : Nat := 0

/-- Fallback record; never observable, every access below is range-guarded
exactly where the JS code is. -/
def defaultRecord : PositionRecord := { x := 0, y := 0, z := 0 }

/-- The global mutable state of part_000 that the modelled functions touch:
`currentMode`, `spaceBetweenTiles`, `imagePositions`, `scene.children`,
`showAxis`, the `axesHelper` reference (modelled as a Bool: whether it is
currently non-null), and the loading-progress counters. -/
structure ViewerState where
  currentMode : Mode
  spaceBetweenTiles : ℚ
  imagePositions : List PositionRecord
  sceneChildren : List SceneChild
  showAxis : Bool
  axesHelper : Bool
  assetsLoaded : Nat
  totalAssetsToLoad : Nat
deriving DecidableEq, Repr

/-- `updateLoadingProgress()` (part_000 lines 85-97): increments
`assetsLoaded` (the percentage display and overlay retiring are DOM side
effects, recomputed from the counters by `percent` below). -/
def tickProgress (s : ViewerState) : ViewerState :=
  { s with assetsLoaded := s.assetsLoaded + 1 }

/-- `updateAxesHelper()` (part_000 lines 353-366): when `showAxis` is set,
adds a fresh axes helper to the scene unless one already exists; otherwise
removes the existing one. -/
def updateAxesHelper (s : ViewerState) : ViewerState :=
  if s.showAxis then
    if s.axesHelper then s
    else { s with axesHelper := true
                  sceneChildren := s.sceneChildren ++ [SceneChild.nonMesh axesId] }
  else
    if s.axesHelper then
      { s with axesHelper := false
               sceneChildren := s.sceneChildren.filter
                 (fun c => c ≠ SceneChild.nonMesh axesId) }
    else s

/-- One iteration of the for-loop body in `createAndRenderPlanes`
(part_000 lines 287-317) at loop index `i`: slices the texture at
row `⌊i / planesPerRow⌋`, column `i mod planesPerRow` of the montage, and
computes the position from `imagePositions[imagePositionOffset + i]`. -/
def renderTile (mode : Mode) (spacing : ℚ) (positions : List PositionRecord)
    (fileIdx offset planesPerRow i : Nat) : Tile :=
  { texture := getChunkedTexture ((i % planesPerRow) * montageTileResolution)
                 ((i / planesPerRow) * montageTileResolution) montageTileResolution
    file := fileIdx
    dataIndex := offset + i
    pos := placePosition mode spacing (positions.getD (offset + i) defaultRecord) }

/-- The for-loop of `createAndRenderPlanes` (part_000 lines 287-318),
running `i` from its current value while `remaining` iterations are left,
with the in-loop safety break when `dataIndex ≥ imagePositions.length`. -/
def renderFrom (mode : Mode) (spacing : ℚ) (positions : List PositionRecord)
    (fileIdx offset planesPerRow : Nat) : Nat → Nat → List Tile
  | _, 0 => []
  | i, remaining + 1 =>
    if positions.length ≤ offset + i then []
    else renderTile mode spacing positions fileIdx offset planesPerRow i ::
         renderFrom mode spacing positions fileIdx offset planesPerRow (i + 1) remaining

/-- `imagesToProcessForThisMontage` (part_000 line 280):
`Math.min(imagePositions.length - imagePositionOffset, maxTilesInThisMontageFile)`
as a JS (possibly negative) number. -/
def imagesToProcess (numPositions offset planesPerRow : Nat) : Int :=
  min ((numPositions : Int) - (offset : Int)) ((planesPerRow * montageTilesY : Nat) : Int)

/-- `createAndRenderPlanes(imageSrc, planesPerRow, imagePositionOffset)`
(part_000 lines 265-322).  `loadOk` is the outcome of `loadImage(imageSrc)`.
On failure: one progress tick, return 0 having rendered nothing.  On
success: one progress tick, then at most
`min(imagePositions.length - offset, planesPerRow * montageTilesY)` tiles
are sliced, positioned, and added to the scene, followed by
`updateAxesHelper()`; the count is returned.  The early `<= 0` return skips
both the loop and `updateAxesHelper`. -/
def createAndRenderPlanesS (s : ViewerState) (loadOk : Bool)
    (planesPerRow offset fileIdx : Nat) : ViewerState × Nat :=
  if loadOk then
    let s1 := tickProgress s
    let n := imagesToProcess s.imagePositions.length offset planesPerRow
    if n ≤ 0 then (s1, 0)
    else
      let tiles := renderFrom s.currentMode s.spaceBetweenTiles s.imagePositions
                     fileIdx offset planesPerRow 0 n.toNat
      (updateAxesHelper
         { s1 with sceneChildren := s1.sceneChildren ++ tiles.map SceneChild.mesh },
       n.toNat)
  else (tickProgress s, 0)

/-- The `for (const filePath of montageFilePaths)` loop of
`switchVisualizationMode` / `init` (part_000 lines 219-224 and 404-409):
each discovered file is rendered in order and the running offset is
advanced by the returned count.  `files` carries the image-load outcome of
each discovered montage file. -/
def renderAllFiles (s : ViewerState) (planesPerRow fileIdx offset : Nat) :
    List Bool → ViewerState
  | [] => s
  | ok :: rest =>
    let r := createAndRenderPlanesS s ok planesPerRow offset fileIdx
    renderAllFiles r.1 planesPerRow (fileIdx + 1) (offset + r.2) rest

/-- The mode rotation of `switchVisualizationMode` (part_000 lines 186-195):
3D → 2D → 2D_GRID → 3D. -/
def nextMode : Mode → Mode
  | Mode.threeD => Mode.twoD
  | Mode.twoD => Mode.twoDGrid
  | Mode.twoDGrid => Mode.threeD

/-- Outcome of a mode-switch cycle (the spec's `Ready` / `Failed`;
in part_000 `Failed` is the catch block at lines 259-262). -/
inductive SwitchResult where
  | ready
  | failed
deriving DecidableEq, Repr

/-- `switchVisualizationMode()` (part_000 lines 175-263), with the async
load outcomes made explicit: `discovered` is the result of
`discoverMontageFiles()` paired with each file's later image-load outcome,
and `datasetResult` is the outcome of `loadVisualizationData()`
(`none` = the JSON fetch failed).  Step order as in the source: reset the
progress counters, advance `currentMode`, **clear all meshes from the scene**
(lines 206-208, keeping non-mesh children), then await the dataset load
(lines 215-216, one progress tick either way; failure throws into the catch
block, aborting the rest), then render every discovered file.  Camera,
controls and button handling are DOM/GL side effects not modelled. -/
def switchVisualizationMode (s : ViewerState) (discovered : List Bool)
    (datasetResult : Option (List PositionRecord)) : ViewerState × SwitchResult :=
  let s1 := { s with assetsLoaded := 0
                     totalAssetsToLoad := 1 + discovered.length
                     currentMode := nextMode s.currentMode }
  let s2 := { s1 with sceneChildren := s1.sceneChildren.filter (fun c => !c.isMesh) }
  match datasetResult with
  | none => (tickProgress s2, SwitchResult.failed)
  | some data =>
    let s3 := tickProgress { s2 with imagePositions := data }
    (renderAllFiles s3 montageTilesX 0 0 discovered, SwitchResult.ready)

/-- The `scene.children.forEach((child, index) => ...)` body of
`updatePlanePositions` (part_000 lines 324-346), carried out from the given
starting index: a mesh child at forEach-index `index` is moved to the
position recomputed from `imagePositions[index]` whenever that entry exists
(the `imagePositions[index]` truthiness check), and left in place otherwise;
non-mesh children are untouched. -/
def updateChildren (mode : Mode) (spacing : ℚ) (positions : List PositionRecord) :
    Nat → List SceneChild → List SceneChild
  | _, [] => []
  | index, SceneChild.nonMesh i :: rest =>
    SceneChild.nonMesh i :: updateChildren mode spacing positions (index + 1) rest
  | index, SceneChild.mesh t :: rest =>
    (if index < positions.length then
       SceneChild.mesh
         { t with pos := repositionPosition mode spacing (positions.getD index defaultRecord) }
     else SceneChild.mesh t) ::
    updateChildren mode spacing positions (index + 1) rest

/-- `updatePlanePositions()` (part_000 lines 324-346). -/
def updatePlanePositions (s : ViewerState) : ViewerState :=
  { s with sceneChildren :=
      updateChildren s.currentMode s.spaceBetweenTiles s.imagePositions 0 s.sceneChildren }

/-- The for-loop of `discoverMontageFiles` (part_000 lines 160-171) with
`oracle i` the outcome of `loadImage` for montage index `i`; discovered
files are represented by their indices.  On a failed attempt the loop
breaks when `i > 0` and nothing has been found yet, or when
`i > discoveredFiles.length + 2`. -/
def discoverGo (oracle : Nat → Bool) : List Nat → Nat → Nat → List Nat
  | found, _, 0 => found
  | found, i, fuel + 1 =>
    if oracle i then discoverGo oracle (found ++ [i]) (i + 1) fuel
    else if 0 < i ∧ found.length = 0 then found
    else if found.length + 2 < i then found
    else discoverGo oracle found (i + 1) fuel

/-- `discoverMontageFiles()` (part_000 lines 156-173): probe indices
0, 1, ... up to `maxAttempts = 20`. -/
def discoverMontageFiles (oracle : Nat → Bool) : List Nat :=
  discoverGo oracle [] 0 20

/-- The loading-progress counters on their own (`assetsLoaded`,
`totalAssetsToLoad`, part_000 lines 25-26), for the ProgressTracker claims. -/
structure Progress where
  assetsLoaded : Nat
  totalAssetsToLoad : Nat
deriving DecidableEq, Repr

/-- The progress reset performed at the start of every load cycle
(part_000 lines 182-183 and 390-392): `assetsLoaded = 0`,
`totalAssetsToLoad = total`. -/
def resetProgress (total : Nat) : Progress :=
  { assetsLoaded := 0, totalAssetsToLoad := total }

/-- The `assetsLoaded++` of `updateLoadingProgress()` (part_000 line 86). -/
def tick (p : Progress) : Progress :=
  { p with assetsLoaded := p.assetsLoaded + 1 }

/-- `n` repeated `tick()` calls. -/
def ticksN : Nat → Progress → Progress
  | 0, p => p
  | n + 1, p => tick (ticksN n p)

/-- JS `Math.round` on the (non-negative) values arising here:
`Math.round(q) = ⌊q + 1/2⌋`. -/
def jsRound (q : ℚ) : ℤ := ⌊q + 1 / 2⌋

/-- The percentage computed by `updateLoadingProgress()` (part_000 line 87):
`totalAssetsToLoad > 0 ? Math.round((assetsLoaded / totalAssetsToLoad) * 100) : 0`. -/
def percent (p : Progress) : ℤ :=
  if 0 < p.totalAssetsToLoad then
    jsRound ((p.assetsLoaded : ℚ) / (p.totalAssetsToLoad : ℚ) * 100)
  else 0

/-- Fallback tile for guarded list access in statements. -/
def defaultTile : Tile :=
  { texture := { x := 0, y := 0, w := 0, h := 0 }, file := 0, dataIndex := 0,
    pos := { x := 0, y := 0, z := 0 } }

/-- The per-child effect of one `updatePlanePositions` pass at forEach-index
`index`, factored out so the repositioning pass can be characterised
pointwise: non-mesh children are untouched; a mesh child is moved to the
position recomputed from `imagePositions[index]` when that entry exists and
left in place otherwise, with its texture, file and dataset association
unchanged either way. -/
def repositionChildAt (mode : Mode) (spacing : ℚ) (positions : List PositionRecord)
    (index : Nat) : SceneChild → SceneChild
  | SceneChild.nonMesh i => SceneChild.nonMesh i
  | SceneChild.mesh t =>
    if index < positions.length then
      SceneChild.mesh
        { t with pos := repositionPosition mode spacing (positions.getD index defaultRecord) }
    else SceneChild.mesh t

/-- A baseline concrete state for witnesses and counterexamples. -/
def sampleState : ViewerState :=
  { currentMode := Mode.threeD, spaceBetweenTiles := 1, imagePositions := [],
    sceneChildren := [], showAxis := true, axesHelper := false,
    assetsLoaded := 0, totalAssetsToLoad := 0 }

/-- A concrete tile (texture sliced at the montage origin, dataset index 0,
sitting at the world origin). -/
def tileA : Tile :=
  { texture := { x := 0, y := 0, w := 256, h := 256 }, file := 0, dataIndex := 0,
    pos := { x := 0, y := 0, z := 0 } }

/-- A concrete state in which a non-mesh object precedes a tile mesh in
`scene.children`, so that the mesh's forEach-index (1) differs from its
dataset index (0). -/
def shiftedState : ViewerState :=
  { sampleState with
    currentMode := Mode.twoD
    imagePositions := [{ x := 0, y := 0, z := 0 }, { x := 1, y := 0, z := 0 }]
    sceneChildren := [SceneChild.nonMesh 5, SceneChild.mesh tileA] }

/-! ### Auxiliary lemmas -/

theorem imagesToProcess_toNat (L off ppr : Nat) :
    (imagesToProcess L off ppr).toNat = min (L - off) (ppr * montageTilesY) := by
  unfold imagesToProcess
  omega

theorem imagesToProcess_nonpos_iff (L off ppr : Nat) :
    imagesToProcess L off ppr ≤ 0 ↔ min (L - off) (ppr * montageTilesY) = 0 := by
  unfold imagesToProcess
  omega

theorem filter_isMesh_map_mesh (l : List Tile) :
    (l.map SceneChild.mesh).filter SceneChild.isMesh = l.map SceneChild.mesh := by
  induction l with
  | nil => rfl
  | cons t rest ih => simp [SceneChild.isMesh, ih]

theorem filter_isMesh_filter_ne_nonMesh (l : List SceneChild) (a : Nat) :
    (l.filter (fun c => c ≠ SceneChild.nonMesh a)).filter SceneChild.isMesh
      = l.filter SceneChild.isMesh := by
  rw [List.filter_filter]
  apply List.filter_congr
  intro c _
  cases c <;> simp [SceneChild.isMesh]

theorem updateAxesHelper_meshes (s : ViewerState) :
    (updateAxesHelper s).sceneChildren.filter SceneChild.isMesh
      = s.sceneChildren.filter SceneChild.isMesh := by
  unfold updateAxesHelper
  by_cases h1 : s.showAxis <;> by_cases h2 : s.axesHelper <;>
    simp only [h1, h2, if_true, if_false, List.filter_append, Bool.false_eq_true,
      ite_true, ite_false]
  · simp [SceneChild.isMesh]
  · exact filter_isMesh_filter_ne_nonMesh _ _

theorem updateAxesHelper_preserves (s : ViewerState) :
    (updateAxesHelper s).imagePositions = s.imagePositions ∧
    (updateAxesHelper s).currentMode = s.currentMode ∧
    (updateAxesHelper s).spaceBetweenTiles = s.spaceBetweenTiles := by
  unfold updateAxesHelper
  by_cases h1 : s.showAxis <;> by_cases h2 : s.axesHelper <;> simp [h1, h2]

theorem renderFrom_eq_map (mode : Mode) (spacing : ℚ) (positions : List PositionRecord)
    (fileIdx offset planesPerRow : Nat) :
    ∀ (remaining i : Nat), offset + i + remaining ≤ positions.length →
      renderFrom mode spacing positions fileIdx offset planesPerRow i remaining
        = (List.range remaining).map
            (fun j => renderTile mode spacing positions fileIdx offset planesPerRow (i + j)) := by
  intro remaining
  induction remaining with
  | zero => intro i _; rfl
  | succ r ih =>
    intro i h
    have hlt : ¬ positions.length ≤ offset + i := by omega
    rw [renderFrom, if_neg hlt]
    rw [ih (i + 1) (by omega), List.range_succ_eq_map]
    simp only [List.map_cons, List.map_map]
    refine List.cons_eq_cons.mpr ⟨by rw [Nat.add_zero], ?_⟩
    apply List.map_congr_left
    intro j _
    simp only [Function.comp_apply]
    congr 1
    omega

theorem createAndRenderPlanesS_false (s : ViewerState) (ppr off f : Nat) :
    createAndRenderPlanesS s false ppr off f = (tickProgress s, 0) := rfl

theorem mem_filter_isMesh (t : Tile) (l : List SceneChild) :
    SceneChild.mesh t ∈ l.filter SceneChild.isMesh ↔ SceneChild.mesh t ∈ l := by
  simp [List.mem_filter, SceneChild.isMesh]

theorem createAndRenderPlanesS_true_meshes (s : ViewerState) (ppr off f : Nat) :
    ((createAndRenderPlanesS s true ppr off f).1.sceneChildren.filter SceneChild.isMesh)
      = s.sceneChildren.filter SceneChild.isMesh ++
        (List.range (min (s.imagePositions.length - off) (ppr * montageTilesY))).map
          (fun j => SceneChild.mesh
            (renderTile s.currentMode s.spaceBetweenTiles s.imagePositions f off ppr j)) := by
  unfold createAndRenderPlanesS
  by_cases hn : imagesToProcess s.imagePositions.length off ppr ≤ 0
  · rw [if_pos rfl, if_pos hn]
    rw [(imagesToProcess_nonpos_iff s.imagePositions.length off ppr).mp hn]
    simp [tickProgress]
  · rw [if_pos rfl, if_neg hn]
    rw [updateAxesHelper_meshes]
    simp only [tickProgress]
    rw [List.filter_append, filter_isMesh_map_mesh]
    rw [renderFrom_eq_map _ _ _ _ _ _ _ 0
      (by rw [imagesToProcess_toNat]; unfold imagesToProcess at hn; omega)]
    rw [imagesToProcess_toNat, List.map_map]
    congr 1
    apply List.map_congr_left
    intro j _
    simp only [Function.comp_apply, Nat.zero_add]

theorem createAndRenderPlanesS_true_snd (s : ViewerState) (ppr off f : Nat) :
    (createAndRenderPlanesS s true ppr off f).2
      = min (s.imagePositions.length - off) (ppr * montageTilesY) := by
  unfold createAndRenderPlanesS
  by_cases hn : imagesToProcess s.imagePositions.length off ppr ≤ 0
  · rw [if_pos rfl, if_pos hn]
    rw [(imagesToProcess_nonpos_iff s.imagePositions.length off ppr).mp hn]
  · rw [if_pos rfl, if_neg hn]
    exact imagesToProcess_toNat _ _ _

theorem createAndRenderPlanesS_preserves (s : ViewerState) (ok : Bool) (ppr off f : Nat) :
    (createAndRenderPlanesS s ok ppr off f).1.imagePositions = s.imagePositions ∧
    (createAndRenderPlanesS s ok ppr off f).1.currentMode = s.currentMode ∧
    (createAndRenderPlanesS s ok ppr off f).1.spaceBetweenTiles = s.spaceBetweenTiles := by
  unfold createAndRenderPlanesS
  cases ok
  · exact ⟨rfl, rfl, rfl⟩
  · by_cases hn : imagesToProcess s.imagePositions.length off ppr ≤ 0
    · simp only [if_pos rfl, if_pos hn]
      exact ⟨rfl, rfl, rfl⟩
    · simp only [if_pos rfl, if_neg hn]
      exact ⟨(updateAxesHelper_preserves _).1, (updateAxesHelper_preserves _).2.1,
             (updateAxesHelper_preserves _).2.2⟩

theorem renderAllFiles_preserves (ppr : Nat) :
    ∀ (files : List Bool) (s : ViewerState) (f off : Nat),
      (renderAllFiles s ppr f off files).imagePositions = s.imagePositions ∧
      (renderAllFiles s ppr f off files).currentMode = s.currentMode ∧
      (renderAllFiles s ppr f off files).spaceBetweenTiles = s.spaceBetweenTiles := by
  intro files
  induction files with
  | nil => exact fun s f off => ⟨rfl, rfl, rfl⟩
  | cons ok rest ih =>
    intro s f off
    simp only [renderAllFiles]
    have hp := createAndRenderPlanesS_preserves s ok ppr off f
    have hr := ih (createAndRenderPlanesS s ok ppr off f).1 (f + 1)
      (off + (createAndRenderPlanesS s ok ppr off f).2)
    exact ⟨hr.1.trans hp.1, hr.2.1.trans hp.2.1, hr.2.2.trans hp.2.2⟩

theorem renderAllFiles_true_meshes_length (ppr : Nat) :
    ∀ (N : Nat) (s : ViewerState) (f off : Nat),
      ((renderAllFiles s ppr f off (List.replicate N true)).sceneChildren.filter
          SceneChild.isMesh).length
        = (s.sceneChildren.filter SceneChild.isMesh).length +
          min (s.imagePositions.length - off) (N * (ppr * montageTilesY)) := by
  intro N
  induction N with
  | zero => intro s f off; simp [renderAllFiles]
  | succ n ih =>
    intro s f off
    rw [List.replicate_succ]
    simp only [renderAllFiles]
    rw [ih (createAndRenderPlanesS s true ppr off f).1 (f + 1)
      (off + (createAndRenderPlanesS s true ppr off f).2)]
    rw [createAndRenderPlanesS_true_meshes, (createAndRenderPlanesS_preserves s true ppr off f).1,
      createAndRenderPlanesS_true_snd]
    rw [List.length_append, List.length_map, List.length_range, Nat.succ_mul]
    omega

theorem createAndRenderPlanesS_mem_mesh (s : ViewerState) (ok : Bool) (ppr off f : Nat)
    (t : Tile) (h : SceneChild.mesh t ∈ (createAndRenderPlanesS s ok ppr off f).1.sceneChildren) :
    SceneChild.mesh t ∈ s.sceneChildren ∨ t.dataIndex < s.imagePositions.length := by
  cases ok
  · exact Or.inl h
  · have h2 : SceneChild.mesh t ∈
        ((createAndRenderPlanesS s true ppr off f).1.sceneChildren.filter SceneChild.isMesh) :=
      (mem_filter_isMesh t _).mpr h
    rw [createAndRenderPlanesS_true_meshes] at h2
    rcases List.mem_append.mp h2 with hl | hr
    · exact Or.inl ((mem_filter_isMesh t _).mp hl)
    · rcases List.mem_map.mp hr with ⟨j, hj, hjt⟩
      have hjlt : j < min (s.imagePositions.length - off) (ppr * montageTilesY) :=
        List.mem_range.mp hj
      have ht : t = renderTile s.currentMode s.spaceBetweenTiles s.imagePositions f off ppr j :=
        (SceneChild.mesh.injEq _ _).mp hjt.symm
      right
      rw [ht]
      show off + j < s.imagePositions.length
      omega

theorem renderAllFiles_mem_mesh (ppr : Nat) :
    ∀ (files : List Bool) (s : ViewerState) (f off : Nat) (t : Tile),
      SceneChild.mesh t ∈ (renderAllFiles s ppr f off files).sceneChildren →
      SceneChild.mesh t ∈ s.sceneChildren ∨ t.dataIndex < s.imagePositions.length := by
  intro files
  induction files with
  | nil => exact fun s f off t h => Or.inl h
  | cons ok rest ih =>
    intro s f off t h
    simp only [renderAllFiles] at h
    rcases ih (createAndRenderPlanesS s ok ppr off f).1 (f + 1)
        (off + (createAndRenderPlanesS s ok ppr off f).2) t h with h1 | h2
    · exact createAndRenderPlanesS_mem_mesh s ok ppr off f t h1
    · right
      rwa [(createAndRenderPlanesS_preserves s ok ppr off f).1] at h2

theorem filter_isMesh_filter_not_isMesh (l : List SceneChild) :
    (l.filter (fun c => !c.isMesh)).filter SceneChild.isMesh = [] := by
  rw [List.filter_filter]
  apply List.filter_eq_nil_iff.mpr
  intro c _
  cases c <;> simp [SceneChild.isMesh]

theorem switch_none_eq (s : ViewerState) (discovered : List Bool) :
    switchVisualizationMode s discovered none
      = ({ currentMode := nextMode s.currentMode
           spaceBetweenTiles := s.spaceBetweenTiles
           imagePositions := s.imagePositions
           sceneChildren := s.sceneChildren.filter (fun c => !c.isMesh)
           showAxis := s.showAxis
           axesHelper := s.axesHelper
           assetsLoaded := 1
           totalAssetsToLoad := 1 + discovered.length }, SwitchResult.failed) := rfl

theorem switch_some_eq (s : ViewerState) (discovered : List Bool)
    (data : List PositionRecord) :
    switchVisualizationMode s discovered (some data)
      = (renderAllFiles
          { currentMode := nextMode s.currentMode
            spaceBetweenTiles := s.spaceBetweenTiles
            imagePositions := data
            sceneChildren := s.sceneChildren.filter (fun c => !c.isMesh)
            showAxis := s.showAxis
            axesHelper := s.axesHelper
            assetsLoaded := 1
            totalAssetsToLoad := 1 + discovered.length }
          montageTilesX 0 0 discovered, SwitchResult.ready) := rfl

theorem updateChildren_length (mode : Mode) (spacing : ℚ)
    (positions : List PositionRecord) :
    ∀ (l : List SceneChild) (k : Nat),
      (updateChildren mode spacing positions k l).length = l.length := by
  intro l
  induction l with
  | nil => intro k; rfl
  | cons c rest ih =>
    intro k
    cases c with
    | nonMesh i => simp [updateChildren, ih (k + 1)]
    | mesh t => simp [updateChildren, ih (k + 1)]

theorem updateChildren_getD (mode : Mode) (spacing : ℚ)
    (positions : List PositionRecord) :
    ∀ (l : List SceneChild) (k i : Nat),
      (updateChildren mode spacing positions k l).getD i (SceneChild.nonMesh axesId)
        = repositionChildAt mode spacing positions (k + i)
            (l.getD i (SceneChild.nonMesh axesId)) := by
  intro l
  induction l with
  | nil => intro k i; cases i <;> rfl
  | cons c rest ih =>
    intro k i
    cases i with
    | zero =>
      cases c with
      | nonMesh j => rfl
      | mesh t => simp [updateChildren, repositionChildAt, List.getD]
    | succ n =>
      cases c with
      | nonMesh j =>
        show (updateChildren mode spacing positions (k + 1) rest).getD n _ = _
        rw [ih (k + 1) n]
        congr 1
        omega
      | mesh t =>
        show ((if k < positions.length then _ else _) ::
              updateChildren mode spacing positions (k + 1) rest).getD (n + 1) _ = _
        rw [List.getD_cons_succ, ih (k + 1) n]
        congr 1
        omega

theorem discoverGo_length (oracle : Nat → Bool) :
    ∀ (fuel : Nat) (found : List Nat) (i : Nat),
      (discoverGo oracle found i fuel).length ≤ found.length + fuel := by
  intro fuel
  induction fuel with
  | zero => intro found i; simp [discoverGo]
  | succ n ih =>
    intro found i
    rw [discoverGo]
    by_cases h1 : oracle i
    · rw [if_pos h1]
      have := ih (found ++ [i]) (i + 1)
      simp only [List.length_append, List.length_singleton] at this
      omega
    · rw [if_neg h1]
      by_cases h2 : 0 < i ∧ found.length = 0
      · rw [if_pos h2]; omega
      · rw [if_neg h2]
        by_cases h3 : found.length + 2 < i
        · rw [if_pos h3]; omega
        · rw [if_neg h3]
          have := ih found (i + 1)
          omega

theorem ticksN_resetProgress (k t : Nat) :
    ticksN k (resetProgress t) = { assetsLoaded := k, totalAssetsToLoad := t } := by
  induction k with
  | zero => rfl
  | succ n ih => rw [ticksN, ih]; rfl

theorem jsRound_le_jsRound {q r : ℚ} (h : q ≤ r) : jsRound q ≤ jsRound r :=
  Int.floor_le_floor (by linarith)

theorem jsRound_hundred : jsRound 100 = 100 := by
  unfold jsRound
  rw [Int.floor_eq_iff]
  constructor <;> norm_num

/-! ### Claim theorems -/

/-- C1, counterexample: in a mode-switch cycle whose dataset load fails, the
scene's managed tile set afterwards does NOT equal the tile set from before
the switch attempt — the source clears all meshes before awaiting the
dataset, so a pre-existing tile is gone. -/
theorem c1_counterexample :
    (switchVisualizationMode { sampleState with sceneChildren := [SceneChild.mesh tileA] }
        [true] none).2 = SwitchResult.failed ∧
    (switchVisualizationMode { sampleState with sceneChildren := [SceneChild.mesh tileA] }
          [true] none).1.sceneChildren.filter SceneChild.isMesh
      ≠ [SceneChild.mesh tileA].filter SceneChild.isMesh := by
  decide

/-- C1, amended: if the dataset load fails during a mode switch the cycle
aborts as `Failed` with no tiles placed and `imagePositions` untouched, and
non-mesh scene objects survive; but the managed tile set is NOT left
untouched: the mesh clearing happens before (not only after) the dataset
load, so on failure the scene holds no meshes at all. -/
theorem c1_amended (s : ViewerState) (discovered : List Bool) :
    (switchVisualizationMode s discovered none).2 = SwitchResult.failed ∧
    (switchVisualizationMode s discovered none).1.sceneChildren
      = s.sceneChildren.filter (fun c => !c.isMesh) ∧
    (switchVisualizationMode s discovered none).1.sceneChildren.filter SceneChild.isMesh
      = [] ∧
    (switchVisualizationMode s discovered none).1.imagePositions = s.imagePositions ∧
    (switchVisualizationMode s discovered none).1.assetsLoaded = 1 := by
  rw [switch_none_eq]
  exact ⟨rfl, rfl, filter_isMesh_filter_not_isMesh s.sceneChildren, rfl, rfl⟩

/-- C2, counterexample: the very first load attempt (index 0) failing does
not make the result empty — with index 0 failing and index 1 succeeding the
probe returns `[montage_1]`, because neither break condition fires at
`i = 0`. -/
theorem c2_counterexample :
    (fun n => n == 1) 0 = false ∧
    discoverMontageFiles (fun n => n == 1) = [1] := by
  decide

/-- C2, amended: the probe returns the empty sequence when the attempts at
indices 0 AND 1 both fail (a lone index-0 failure does not stop the scan);
when indices 0 and 1 succeed and every later attempt fails the result is
exactly `[montage_0, montage_1]`; and the scan never exceeds the hard cap of
20 indices.  (The break rule on a failure at index `i` is
`discoveredFiles.length + 2 < i`, not a consecutive-failure count.) -/
theorem c2_amended (oracle : Nat → Bool) :
    (oracle 0 = false → oracle 1 = false → discoverMontageFiles oracle = []) ∧
    (oracle 0 = true → oracle 1 = true → (∀ n, 2 ≤ n → oracle n = false) →
      discoverMontageFiles oracle = [0, 1]) ∧
    (discoverMontageFiles oracle).length ≤ 20 := by
  refine ⟨?_, ?_, ?_⟩
  · intro h0 h1
    simp [discoverMontageFiles, discoverGo, h0, h1]
  · intro h0 h1 hrest
    have h2 := hrest 2 (by norm_num)
    have h3 := hrest 3 (by norm_num)
    have h4 := hrest 4 (by norm_num)
    have h5 := hrest 5 (by norm_num)
    simp [discoverMontageFiles, discoverGo, h0, h1, h2, h3, h4, h5]
  · have h := discoverGo_length oracle 20 [] 0
    simpa [discoverMontageFiles] using h

/-- C2, witness: a concrete probe run in which indices 0 and 1 succeed and
everything later fails yields exactly the two files. -/
theorem c2_witness :
    discoverMontageFiles (fun n => decide (n < 2)) = [0, 1] :=
  (c2_amended (fun n => decide (n < 2))).2.1 (by decide) (by decide)
    (fun n hn => decide_eq_false_iff_not.mpr (Nat.not_lt.mpr hn))

/-- C5: in `2D_GRID` mode the computed tile position is independent of the
spacing control, both at initial placement (`createAndRenderPlanes`) and on
reposition (`updatePlanePositions`), and equals
`(record.x · 2.0, record.y · 2.0, 0)`. -/
theorem c5_grid_mode_ignores_spacing (r : PositionRecord) (s1 s2 : ℚ) :
    placePosition Mode.twoDGrid s1 r = placePosition Mode.twoDGrid s2 r ∧
    repositionPosition Mode.twoDGrid s1 r = repositionPosition Mode.twoDGrid s2 r ∧
    placePosition Mode.twoDGrid s1 r = { x := r.x * 2, y := r.y * 2, z := 0 } ∧
    repositionPosition Mode.twoDGrid s1 r = { x := r.x * 2, y := r.y * 2, z := 0 } := by
  refine ⟨?_, ?_, ?_, ?_⟩ <;>
    simp [placePosition, repositionPosition, effectiveSpaceMultiplier, scalar_]

/-- C6: the placed world position follows the spec's rule table: 3D scales
all three record coordinates by the spacing, 2D scales x and y and zeroes z,
and 2D_GRID uses the fixed multiplier 2.0 with z = 0. -/
theorem c6_layout_rule_table (r : PositionRecord) (spacing : ℚ) :
    placePosition Mode.threeD spacing r
      = { x := r.x * spacing, y := r.y * spacing, z := r.z * spacing } ∧
    placePosition Mode.twoD spacing r
      = { x := r.x * spacing, y := r.y * spacing, z := 0 } ∧
    placePosition Mode.twoDGrid spacing r
      = { x := r.x * 2, y := r.y * 2, z := 0 } := by
  refine ⟨?_, ?_, ?_⟩ <;> simp [placePosition, effectiveSpaceMultiplier]

/-- C3: over a load cycle in which every discovered montage image loads
successfully, the number of tiles placed equals
`min(M, N * tilesPerRow * tileRows)` for a dataset of length M and N
discovered files, and no placed tile's dataset index reaches M. -/
theorem c3_tiles_placed (s : ViewerState) (N : Nat) (data : List PositionRecord) :
    (((switchVisualizationMode s (List.replicate N true) (some data)).1.sceneChildren.filter
        SceneChild.isMesh).length
      = min data.length (N * (montageTilesX * montageTilesY))) ∧
    (switchVisualizationMode s (List.replicate N true) (some data)).1.sceneChildren.all
      (fun c => match c with
        | SceneChild.mesh t => decide (t.dataIndex < data.length)
        | SceneChild.nonMesh _ => true) = true := by
  rw [switch_some_eq]
  constructor
  · rw [renderAllFiles_true_meshes_length]
    simp only [filter_isMesh_filter_not_isMesh, List.length_nil, Nat.zero_add, Nat.sub_zero]
  · rw [List.all_eq_true]
    intro c hc
    cases c with
    | nonMesh i => rfl
    | mesh t =>
      show decide (t.dataIndex < data.length) = true
      rw [decide_eq_true_eq]
      rcases renderAllFiles_mem_mesh montageTilesX (List.replicate N true) _ 0 0 t hc
        with h1 | h2
      · exfalso
        have hm := (List.mem_filter.mp h1).2
        simp [SceneChild.isMesh] at hm
      · simpa using h2

/-- C4, counterexample: a reposition pass does not use the tile's original
dataset index — with a non-mesh child at forEach-index 0, the mesh at index 1
(whose dataset index is 0) is moved to the position of record 1, not to the
position recomputed from its own dataset index 0. -/
theorem c4_counterexample :
    (updatePlanePositions shiftedState).sceneChildren.getD 1 (SceneChild.nonMesh axesId)
      = SceneChild.mesh { tileA with pos := { x := 1, y := 0, z := 0 } } ∧
    repositionPosition shiftedState.currentMode shiftedState.spaceBetweenTiles
        (shiftedState.imagePositions.getD tileA.dataIndex defaultRecord)
      = { x := 0, y := 0, z := 0 } ∧
    SceneChild.mesh { tileA with pos := ({ x := 1, y := 0, z := 0 } : Vec3) }
      ≠ SceneChild.mesh { tileA with pos := ({ x := 0, y := 0, z := 0 } : Vec3) } := by
  refine ⟨?_, ?_, ?_⟩
  · norm_num [updatePlanePositions, updateChildren, shiftedState, sampleState, tileA,
      repositionPosition, effectiveSpaceMultiplier, scalar_, defaultRecord, List.getD]
    decide
  · norm_num [shiftedState, sampleState, tileA, repositionPosition,
      effectiveSpaceMultiplier, scalar_, defaultRecord, List.getD]
  · norm_num [tileA]

/-- C4, amended: a reposition pass preserves the number of scene children
and rewrites each child pointwise: non-mesh children are untouched, and a
mesh child at scene index `i` keeps its texture, file, and dataset
association but is moved to the position recomputed (with the current mode
and spacing) from the record at its scene-children index `i` — not from the
tile's original dataset index — whenever `imagePositions[i]` exists, and is
left in place otherwise. -/
theorem c4_amended (s : ViewerState) :
    (updatePlanePositions s).sceneChildren.length = s.sceneChildren.length ∧
    ∀ i : Nat,
      (updatePlanePositions s).sceneChildren.getD i (SceneChild.nonMesh axesId)
        = repositionChildAt s.currentMode s.spaceBetweenTiles s.imagePositions i
            (s.sceneChildren.getD i (SceneChild.nonMesh axesId)) := by
  constructor
  · exact updateChildren_length _ _ _ _ 0
  · intro i
    have h := updateChildren_getD s.currentMode s.spaceBetweenTiles s.imagePositions
      s.sceneChildren 0 i
    simpa using h

/-- C7, counterexample: `percent` is not confined to 0–100 over arbitrary
tick sequences — two ticks against a total of 1 yield 200. -/
theorem c7_counterexample :
    percent (ticksN 2 (resetProgress 1)) = 200 ∧
    ¬ percent (ticksN 2 (resetProgress 1)) ≤ 100 := by
  have h : percent (ticksN 2 (resetProgress 1)) = 200 := by
    rw [ticksN_resetProgress]
    unfold percent jsRound
    rw [if_pos (by norm_num)]
    rw [show ((2 : Nat) : ℚ) / ((1 : Nat) : ℚ) * 100 + 1 / 2 = 401 / 2 by norm_num]
    rw [Int.floor_eq_iff]
    constructor <;> norm_num
  exact ⟨h, by rw [h]; norm_num⟩

/-- C7, amended: `percent` is non-decreasing under `tick()`, equals exactly
100 after `total` ticks when `total > 0`, reports 0 (without dividing) when
`total = 0`, and stays within 0–100 as long as the number of ticks does not
exceed `total`; beyond `total` ticks it can exceed 100. -/
theorem c7_amended (total k : Nat) :
    percent (ticksN k (resetProgress total))
      ≤ percent (ticksN (k + 1) (resetProgress total)) ∧
    (0 < total → percent (ticksN total (resetProgress total)) = 100) ∧
    percent (ticksN k (resetProgress 0)) = 0 ∧
    (k ≤ total → 0 ≤ percent (ticksN k (resetProgress total)) ∧
      percent (ticksN k (resetProgress total)) ≤ 100) := by
  have hpercent : ∀ m t : Nat, percent (ticksN m (resetProgress t))
      = if 0 < t then jsRound ((m : ℚ) / (t : ℚ) * 100) else 0 := by
    intro m t
    rw [ticksN_resetProgress]
    rfl
  refine ⟨?_, ?_, ?_, ?_⟩
  · rw [hpercent, hpercent]
    by_cases ht : 0 < total
    · rw [if_pos ht, if_pos ht]
      apply jsRound_le_jsRound
      have htq : (0 : ℚ) < (total : ℚ) := by exact_mod_cast ht
      have hdiv : (k : ℚ) / (total : ℚ) ≤ ((k + 1 : Nat) : ℚ) / (total : ℚ) := by
        apply (div_le_div_iff_of_pos_right htq).mpr
        exact_mod_cast Nat.le_succ k
      nlinarith
    · rw [if_neg ht, if_neg ht]
  · intro ht
    rw [hpercent, if_pos ht]
    have htq : ((total : ℚ)) ≠ 0 := Nat.cast_ne_zero.mpr ht.ne'
    rw [div_self htq, one_mul, jsRound_hundred]
  · rw [hpercent]
    rfl
  · intro hk
    rw [hpercent]
    by_cases ht : 0 < total
    · rw [if_pos ht]
      have htq : (0 : ℚ) < (total : ℚ) := by exact_mod_cast ht
      constructor
      · apply Int.le_floor.mpr
        have hnn : (0 : ℚ) ≤ (k : ℚ) / (total : ℚ) * 100 := by positivity
        push_cast
        linarith
      · have hq : (k : ℚ) / (total : ℚ) * 100 ≤ 100 := by
          have h1 : (k : ℚ) / (total : ℚ) ≤ 1 := by
            rw [div_le_one htq]
            exact_mod_cast hk
          nlinarith
        calc jsRound ((k : ℚ) / (total : ℚ) * 100) ≤ jsRound 100 := jsRound_le_jsRound hq
          _ = 100 := jsRound_hundred
    · rw [if_neg ht]
      exact ⟨le_refl 0, by norm_num⟩

/-- C7, witness: with total 2, two ticks reach exactly 100, and one tick
stays within 0–100. -/
theorem c7_witness :
    (0 < 2 ∧ percent (ticksN 2 (resetProgress 2)) = 100) ∧
    (1 ≤ 2 ∧ 0 ≤ percent (ticksN 1 (resetProgress 2)) ∧
      percent (ticksN 1 (resetProgress 2)) ≤ 100) :=
  ⟨⟨by norm_num, (c7_amended 2 2).2.1 (by norm_num)⟩,
   ⟨by norm_num, (c7_amended 2 1).2.2.2 (by norm_num)⟩⟩

/-- C8: the atlas slicer reads the source rectangle with origin
`((i mod tilesPerRow) * tileResolution, (i / tilesPerRow) * tileResolution)`
and size `tileResolution × tileResolution` for the tile at in-file index `i`;
in particular index 39 with 15 tiles per row maps to row 2, column 9, as in
the 40-record / one-montage-file scenario. -/
theorem c8_atlas_slicer (mode : Mode) (spacing : ℚ) (positions : List PositionRecord)
    (fileIdx offset planesPerRow remaining j : Nat)
    (hrem : offset + remaining ≤ positions.length) (hj : j < remaining) :
    ((renderFrom mode spacing positions fileIdx offset planesPerRow 0 remaining).getD j
        defaultTile).texture
      = getChunkedTexture ((j % planesPerRow) * montageTileResolution)
          ((j / planesPerRow) * montageTileResolution) montageTileResolution ∧
    39 % 15 = 9 ∧ 39 / 15 = 2 ∧
    (createAndRenderPlanesS
        { sampleState with imagePositions := List.replicate 40 defaultRecord }
        true montageTilesX 0 0).2 = 40 ∧
    ((renderFrom Mode.twoD 1 (List.replicate 40 defaultRecord) 0 0 montageTilesX 0 40).getD
        39 defaultTile).texture
      = { x := 9 * montageTileResolution, y := 2 * montageTileResolution,
          w := montageTileResolution, h := montageTileResolution } := by
  refine ⟨?_, ?_, ?_, ?_, ?_⟩
  · rw [renderFrom_eq_map mode spacing positions fileIdx offset planesPerRow remaining 0
      (by omega)]
    rw [List.getD_eq_getElem?_getD, List.getElem?_map, List.getElem?_range hj]
    simp [renderTile]
  · norm_num
  · norm_num
  · decide
  · rw [renderFrom_eq_map Mode.twoD 1 (List.replicate 40 defaultRecord) 0 0 montageTilesX
      40 0 (by simp)]
    rw [List.getD_eq_getElem?_getD, List.getElem?_map,
      List.getElem?_range (by norm_num : 39 < 40)]
    simp [renderTile, getChunkedTexture]
    norm_num [montageTileResolution, montageTilesX]

/-- C8, witness: a concrete two-tile render in which tile 1's texture was
sliced at column 1, row 0 of the montage. -/
theorem c8_witness :
    (0 + 2 ≤ (List.replicate 2 defaultRecord).length ∧ 1 < 2) ∧
    ((renderFrom Mode.twoD 1 (List.replicate 2 defaultRecord) 0 0 15 0 2).getD 1
        defaultTile).texture
      = getChunkedTexture ((1 % 15) * montageTileResolution)
          ((1 / 15) * montageTileResolution) montageTileResolution :=
  ⟨⟨by decide, by decide⟩,
   (c8_atlas_slicer Mode.twoD 1 (List.replicate 2 defaultRecord) 0 0 15 2 1
     (by decide) (by decide)).1⟩

/-- C9: a failed montage-image load is non-fatal: it leaves the scene
unchanged (zero tiles contributed), still records exactly one progress tick,
returns a rendered count of 0, and the load cycle continues with the next
discovered file. -/
theorem c9_montage_failure_nonfatal (s : ViewerState) (ppr off f : Nat)
    (rest : List Bool) :
    (createAndRenderPlanesS s false ppr off f).1.sceneChildren = s.sceneChildren ∧
    (createAndRenderPlanesS s false ppr off f).1.assetsLoaded = s.assetsLoaded + 1 ∧
    (createAndRenderPlanesS s false ppr off f).2 = 0 ∧
    renderAllFiles s ppr f off (false :: rest)
      = renderAllFiles (tickProgress s) ppr (f + 1) off rest := by
  refine ⟨rfl, rfl, rfl, ?_⟩
  simp only [renderAllFiles, createAndRenderPlanesS_false, Nat.add_zero]

/-- C10: a failed montage file does not advance the running tile-index
offset (its render returns 0 and the caller adds only that), so the files
after it are processed starting from the failed file's offset; a successful
render at offset `off` pairs its `j`-th tile with dataset record `off + j`,
i.e. subsequent tiles consume records shifted down by the skipped file's
capacity relative to the concatenated file-order alignment. -/
theorem c10_failed_file_offset (s : ViewerState) (ppr off f : Nat)
    (rest : List Bool) :
    (createAndRenderPlanesS s false ppr off f).2 = 0 ∧
    renderAllFiles s ppr f off (false :: rest)
      = renderAllFiles (tickProgress s) ppr (f + 1) off rest ∧
    ((createAndRenderPlanesS s true ppr off f).1.sceneChildren.filter SceneChild.isMesh
      = s.sceneChildren.filter SceneChild.isMesh ++
        (List.range (min (s.imagePositions.length - off) (ppr * montageTilesY))).map
          (fun j => SceneChild.mesh
            (renderTile s.currentMode s.spaceBetweenTiles s.imagePositions f off ppr j))) ∧
    ∀ j : Nat,
      (renderTile s.currentMode s.spaceBetweenTiles s.imagePositions f off ppr j).dataIndex
        = off + j := by
  refine ⟨rfl, ?_, createAndRenderPlanesS_true_meshes s ppr off f, fun j => rfl⟩
  simp only [renderAllFiles, createAndRenderPlanesS_false, Nat.add_zero]

end TsneViewer
